import Mathlib

/-!
Shallow embedding of `src/mcp-server.py` (a thin MCP adapter over the
ProPresenter HTTP API).

The program has two pieces:
  * `call_propresenter_api` (lines 24-102): one HTTP attempt, classifying
    the outcome into a uniform result mapping;
  * the tool catalog, each tool a one-line call into the helper, plus
    `trigger_macro_by_name` (lines 269-291) which lists macros, scans for a
    display name and triggers the found id.

JSON values are modelled by the inductive `Json`.  The body of an HTTP
response is abstracted by `Body`: empty content, content that parses as
JSON (carrying both the wire text and the parsed value), or non-empty
content that fails to parse.  The outcome of the single HTTP attempt made
by `call_propresenter_api` is `HttpOutcome`, covering the exception cases
the source handles (`httpx.TimeoutException`, `httpx.ConnectError`,
`httpx.HTTPStatusError` raised by `raise_for_status` on a non-2xx status,
`httpx.RequestError`, bare `Exception`).

Python dynamic-typing failures matter here (`trigger_macro_by_name` calls
`.get` on values that may not be dicts), so dict access and iteration are
embedded as `Except PyErr _`.
-/

/-- A JSON value, as produced by `response.json()`. -/
inductive Json where
  | null : Json
  | bool : Bool → Json
  | num : Int → Json
  | str : String → Json
  | arr : List Json → Json
  | obj : List (String × Json) → Json
deriving Repr

/-- A Python runtime exception escaping the embedded code. -/
inductive PyErr where
  | attributeError : String → PyErr
  | typeError : String → PyErr
deriving Repr, DecidableEq

/-- First-match lookup in an object field list (Python dicts have unique
keys; the embedding keeps the first binding). -/
def objLookup : List (String × Json) → String → Option Json
  | [], _ => none
  | (k, v) :: rest, key => if k = key then some v else objLookup rest key

/-- Python `x.get(key)`: `AttributeError` unless `x` is a dict; `None` when
the key is absent. -/
def pyGet (x : Json) (key : String) : Except PyErr Json :=
  match x with
  | .obj kvs => .ok ((objLookup kvs key).getD .null)
  | _ => .error (.attributeError "get")

/-- Python `x.get(key, dflt)`. -/
def pyGetD (x : Json) (key : String) (dflt : Json) : Except PyErr Json :=
  match x with
  | .obj kvs => .ok ((objLookup kvs key).getD dflt)
  | _ => .error (.attributeError "get")

/-- Python `for x in v`: a dict yields its keys, a list its elements, a
string its characters; other JSON values are not iterable. -/
def pyIter (v : Json) : Except PyErr (List Json) :=
  match v with
  | .obj kvs => .ok (kvs.map (fun kv => .str kv.1))
  | .arr xs => .ok xs
  | .str s => .ok (s.toList.map (fun c => .str (String.mk [c])))
  | _ => .error (.typeError "not iterable")

/-- Python truthiness of a JSON value (`if not macro_id`, `if data`). -/
def pyTruthy : Json → Bool
  | .null => false
  | .bool b => b
  | .num n => n != 0
  | .str s => s ≠ ""
  | .arr xs => !xs.isEmpty
  | .obj kvs => !kvs.isEmpty

/-- Python `v == s` for a JSON value against a `str` literal: only a string
compares equal to a string. -/
def jsonEqStr : Json → String → Bool
  | .str s, t => s == t
  | _, _ => false

mutual

/-- Python `str(v)` for a JSON value, as used by the f-string
`f"/v1/macro/{macro_id}/trigger"`.  `str` of a list or dict is its `repr`;
`repr` of a string is quoted (quote-escaping inside the repr of strings is
not modelled, and no theorem depends on it). -/
def pyStr : Json → String
  | .str s => s
  | .num n => toString n
  | .bool true => "True"
  | .bool false => "False"
  | .null => "None"
  | .arr xs => "[" ++ pyStrList xs ++ "]"
  | .obj kvs => "\x7b" ++ pyStrFields kvs ++ "\x7d"

/-- Python `repr(v)` for a JSON value. -/
def pyReprJ : Json → String
  | .str s => "'" ++ s ++ "'"
  | .num n => toString n
  | .bool true => "True"
  | .bool false => "False"
  | .null => "None"
  | .arr xs => "[" ++ pyStrList xs ++ "]"
  | .obj kvs => "\x7b" ++ pyStrFields kvs ++ "\x7d"

/-- Comma-joined `repr`s of list elements. -/
def pyStrList : List Json → String
  | [] => ""
  | [x] => pyReprJ x
  | x :: rest => pyReprJ x ++ ", " ++ pyStrList rest

/-- Comma-joined `repr`ed key-value pairs of a dict. -/
def pyStrFields : List (String × Json) → String
  | [] => ""
  | [(k, v)] => "'" ++ k ++ "': " ++ pyReprJ v
  | (k, v) :: rest => "'" ++ k ++ "': " ++ pyReprJ v ++ ", " ++ pyStrFields rest

end

/-! ## The HTTP layer -/

/-- The content of an HTTP response, as `call_propresenter_api` observes it:
`response.content` empty, or non-empty and parsed by `response.json()` into
a value (the wire text is kept alongside, it is what `response.text`
yields), or non-empty and failing to parse (`ValueError`). -/
inductive Body where
  | empty : Body
  | jsonBody : String → Json → Body
  | textBody : String → Body
deriving Repr

/-- `response.text` / emptiness of `response.content`. -/
def Body.content : Body → String
  | .empty => ""
  | .jsonBody raw _ => raw
  | .textBody s => s

/-- `response.json()`: `some` parsed value, or `none` for the `ValueError`
cases (empty content, or content that is not valid JSON). -/
def jsonParse : Body → Option Json
  | .jsonBody _ j => some j
  | _ => none

/-- Well-formed bodies: a non-empty-content constructor carries non-empty
wire text (empty content is exactly `Body.empty`). -/
def Body.wf : Body → Prop
  | .empty => True
  | .jsonBody raw _ => raw ≠ ""
  | .textBody s => s ≠ ""

/-- The outcome of the single HTTP attempt inside the `try` block: a final
response with a status and a body, or one of the exceptions the source
catches.  (`httpx.HTTPStatusError` is not an outcome: the source itself
raises it from `raise_for_status` on a non-2xx response.) -/
inductive HttpOutcome where
  | response : Nat → Body → HttpOutcome
  | timeout : HttpOutcome
  | connectError : HttpOutcome
  | requestError : String → HttpOutcome
  | unexpectedError : String → HttpOutcome
deriving Repr

/-- Well-formed outcomes: bodies are well formed, and a 204 response has no
body (HTTP/1.1 framing, enforced by the h11 transport under httpx: a 204
response cannot carry a message body). -/
def HttpOutcome.wf : HttpOutcome → Prop
  | .response status body => body.wf ∧ (status = 204 → body = Body.empty)
  | _ => True

/-- `PROPRESENTER_API_URL = f"http://{PROPRESENTER_HOST}:{PROPRESENTER_PORT}"`. -/
def apiUrl (host : String) (port : Int) : String :=
  "http://" ++ host ++ ":" ++ toString port

/-- `response.is_success` as used by `response.raise_for_status()` in
httpx: 2xx statuses succeed, every other status raises `HTTPStatusError`. -/
def is2xx (status : Nat) : Bool :=
  200 ≤ status && status ≤ 299

/-- The uniform error result `{"status": "error", "message": msg}`. -/
def errObj (msg : String) : Json :=
  Json.obj [("status", Json.str "error"), ("message", Json.str msg)]

/-- The generic success result returned for bodiless responses. -/
def successMsgObj : Json :=
  Json.obj [("status", Json.str "success"),
            ("message", Json.str "Action completed successfully.")]

/-- The status-specific message of the `httpx.HTTPStatusError` handler
(lines 77-90 of the source). -/
def httpStatusErrorMsg (endpoint : String) (status : Nat) (body : Body) : String :=
  if status = 404 then
    "Endpoint not found: " ++ endpoint ++
      ". This endpoint may not be supported in your ProPresenter version."
  else if status = 401 ∨ status = 403 then
    "Authentication failed. Check if ProPresenter requires authentication credentials."
  else if status = 500 then
    "ProPresenter server error. The API request was received but ProPresenter encountered an internal error."
  else
    "HTTP " ++ toString status ++ " error: " ++ body.content

/-- `call_propresenter_api` (lines 24-102): classify the outcome of one
HTTP attempt into a result mapping.  `endpoint`, `method` and `data`
shape the request (see `buildRequest`); the result depends on the outcome
and, for the non-2xx and 404 messages, on `endpoint` and the body text. -/
def call_propresenter_api (host : String) (port : Int) (endpoint : String)
    (method : String) (data : Option Json) (outcome : HttpOutcome) : Json :=
  match outcome with
  | .response status body =>
    if !is2xx status then
      Json.obj [("status", Json.str "error"),
                ("message", Json.str (httpStatusErrorMsg endpoint status body)),
                ("status_code", Json.num status)]
    else if status = 204 then
      successMsgObj
    else if status = 200 ∧ body.content = "" then
      successMsgObj
    else
      match jsonParse body with
      | some j => j
      | none => Json.obj [("status", Json.str "success"),
                          ("data", Json.str body.content)]
  | .timeout =>
    errObj ("Request timed out connecting to ProPresenter at " ++ apiUrl host port ++
      ". Ensure ProPresenter is running and the network API is enabled.")
  | .connectError =>
    errObj ("Cannot connect to ProPresenter at " ++ apiUrl host port ++
      ". Check that ProPresenter is running, the API is enabled in Network settings, and the host/port are correct.")
  | .requestError m =>
    errObj ("Network error occurred: " ++ m)
  | .unexpectedError m =>
    errObj ("Unexpected error: " ++ m)

/-- The request `client.request(method, full_url, **kwargs)` issues, with
the kwargs construction of lines 43-47: a 10 second timeout always, and a
JSON body only when `data` is truthy. -/
structure Request where
  method : String
  url : String
  timeoutSecs : Nat
  jsonData : Option Json
deriving Repr

/-- Lines 39-47: `full_url = f"{PROPRESENTER_API_URL}{endpoint}"`;
`kwargs = {"timeout": 10.0}`; `if data: kwargs["json"] = data`. -/
def buildRequest (host : String) (port : Int) (endpoint : String)
    (method : String) (data : Option Json) : Request :=
  { method := method
    url := apiUrl host port ++ endpoint
    timeoutSecs := 10
    jsonData :=
      match data with
      | some d => if pyTruthy d then some d else none
      | none => none }

/-! ## `trigger_macro_by_name` (lines 269-291)

The tool makes a listing call, then (lines 278-279) tests
`macros_response.get("status") == "error"`, scans (lines 281-285)
`for macro in macros_response: if macro.get("name") == name:
macro_id = macro.get("id", \x7b\x7d).get("uuid"); break`, returns a
synthetic not-found error when `macro_id` is falsy, and otherwise
triggers `f"/v1/macro/\x7bmacro_id\x7d/trigger"`.  Dynamic attribute and
type errors raised by this code are NOT caught inside the tool, so the
embedding returns `Except PyErr Json`, paired with the list of endpoints
that were actually requested. -/

/-- The for-loop of lines 281-285: the value `macro_id` holds after the
loop (Python `None` when no item matched), or the Python exception the
loop body raises.  Each `it` is one element produced by iterating
`macros_response`. -/
def findMacroId (name : String) : List Json → Except PyErr Json
  | [] => .ok .null
  | it :: rest => do
    let n ← pyGet it "name"
    if jsonEqStr n name then
      let idv ← pyGetD it "id" (.obj [])
      pyGet idv "uuid"
    else
      findMacroId name rest

/-- The synthetic not-found error of line 288. -/
def macroNotFoundObj (name : String) : Json :=
  Json.obj [("status", Json.str "error"),
            ("message", Json.str ("Macro with name '" ++ name ++ "' not found."))]

/-- `trigger_macro_by_name` (lines 269-291).  `env` gives the outcome of
the HTTP attempt made against each endpoint.  Returns the value the Python
function returns (or the uncaught Python exception), together with the
endpoints it issued requests against, in order. -/
def trigger_macro_by_name (host : String) (port : Int)
    (env : String → HttpOutcome) (name : String) :
    Except PyErr Json × List String :=
  let macros_response :=
    call_propresenter_api host port "/v1/macros" "GET" none (env "/v1/macros")
  match pyGet macros_response "status" with
  | .error e => (.error e, ["/v1/macros"])
  | .ok st =>
    if jsonEqStr st "error" then
      (.ok macros_response, ["/v1/macros"])
    else
      match pyIter macros_response with
      | .error e => (.error e, ["/v1/macros"])
      | .ok items =>
        match findMacroId name items with
        | .error e => (.error e, ["/v1/macros"])
        | .ok macroId =>
          if !pyTruthy macroId then
            (.ok (macroNotFoundObj name), ["/v1/macros"])
          else
            let ep := "/v1/macro/" ++ pyStr macroId ++ "/trigger"
            (.ok (call_propresenter_api host port ep "GET" none (env ep)),
             ["/v1/macros", ep])

/-- Outcomes that take one of the five `except` branches of
`call_propresenter_api` (the client-generated error results): every
exception branch fires for these, the 2xx paths for the rest. -/
def isFailure : HttpOutcome → Bool
  | .response status _ => !is2xx status
  | _ => true

/-- Outcomes whose `except` branch is the `httpx.HTTPStatusError` one: a
final response with a non-2xx status. -/
def isHttpStatusFailure : HttpOutcome → Bool
  | .response status _ => !is2xx status
  | _ => false

/-! ## Theorems -/

/-- Appending to a non-empty string is non-empty (used to show the error
messages of `call_propresenter_api` are never empty). -/
theorem strAppendNeEmpty (a b : String) (ha : a ≠ "") : a ++ b ≠ "" := by
  intro h
  have hl := congrArg String.length h
  rw [String.length_append] at hl
  have hz : ("" : String).length = 0 := rfl
  rw [hz] at hl
  have h0 : a.length = 0 := by omega
  apply ha
  cases a with
  | mk data =>
    simp only [String.length] at h0
    have : data = [] := List.length_eq_zero.mp h0
    subst this
    rfl

/-- C1: the claim says no tool ever raises past the tool boundary and that
`trigger_macro_by_name` returns normally for every value the listing call
can return.  The code violates this: when the listing call returns a JSON
array (here `[]`, an HTTP 200 response with body text `[]`),
`macros_response.get("status")` on line 278 raises `AttributeError`
(`list` objects have no `get`), which escapes the tool uncaught; only the
listing request was issued. -/
theorem c1_trigger_by_name_raises_on_array_listing :
    trigger_macro_by_name "localhost" 50001
      (fun _ => .response 200 (.jsonBody "[]" (Json.arr []))) "Intro"
      = (.error (.attributeError "get"), ["/v1/macros"]) := rfl

/-- C2: with the claim's listing `[\x7bname:"A",id:"1"\x7d,
\x7bname:"B",id:"2"\x7d]` returned by the listing call (HTTP 200), the
claim says triggering name "B" issues the action request against
identifier "2".  Instead the code raises `AttributeError` at the
`.get("status")` test on line 278 (the listing is a list, not a dict),
and no action request is issued: the only endpoint requested is the
listing one.  The raised exception is, in particular, not a returned
result. -/
theorem c2_trigger_by_name_crashes_on_spec_listing :
    trigger_macro_by_name "localhost" 50001
      (fun _ => .response 200 (.jsonBody "x"
        (Json.arr [Json.obj [("name", Json.str "A"), ("id", Json.str "1")],
                   Json.obj [("name", Json.str "B"), ("id", Json.str "2")]]))) "B"
      = (.error (.attributeError "get"), ["/v1/macros"]) := rfl

/-- C3: for every operation (any endpoint, method and request data), a 2xx
response carrying a JSON body is returned parsed and verbatim, with no
envelope added around it. -/
theorem c3_json_body_returned_verbatim (host : String) (port : Int)
    (endpoint method : String) (data : Option Json) (status : Nat)
    (raw : String) (j : Json)
    (h2 : 200 ≤ status ∧ status ≤ 299)
    (hwf : (HttpOutcome.response status (Body.jsonBody raw j)).wf) :
    call_propresenter_api host port endpoint method data
      (.response status (.jsonBody raw j)) = j := by
  obtain ⟨hraw, h204⟩ := hwf
  have hne : status ≠ 204 := fun h => Body.noConfusion (h204 h)
  have hsucc : is2xx status = true := by
    simp only [is2xx, Bool.and_eq_true, decide_eq_true_eq]
    exact h2
  simp only [call_propresenter_api, hsucc, Bool.not_true, Bool.false_eq_true,
    if_false, Body.content]
  rw [if_neg hne, if_neg (fun hc => hraw hc.2)]
  rfl

/-- C3 witness: a concrete 200 response with JSON body `1` comes back as
the parsed value `1`. -/
theorem c3_witness :
    call_propresenter_api "localhost" 50001 "/v1/presentation/active" "GET" none
      (.response 200 (.jsonBody "1" (Json.num 1))) = Json.num 1 :=
  c3_json_body_returned_verbatim "localhost" 50001 "/v1/presentation/active"
    "GET" none 200 "1" (Json.num 1) ⟨by decide, by decide⟩
    ⟨(by decide : ("1" : String) ≠ ""), fun h => absurd h (by decide)⟩

/-- C4 counterexample: the claim says every 2xx response with an empty body
yields the generic success message, but a 202 response with empty body
falls through the 204 and 200 checks into the JSON-parse branch, whose
`ValueError` handler returns `\x7b"status": "success", "data": ""\x7d`
instead. -/
theorem c4_counterexample :
    call_propresenter_api "localhost" 50001 "/v1/presentation/active/next" "GET" none
      (.response 202 Body.empty)
      = Json.obj [("status", Json.str "success"), ("data", Json.str "")] ∧
    Json.obj [("status", Json.str "success"), ("data", Json.str "")] ≠ successMsgObj := by
  refine ⟨rfl, fun h => ?_⟩
  simp only [successMsgObj, Json.obj.injEq, List.cons.injEq, Prod.mk.injEq] at h
  exact absurd h.2.1.1 (by decide)

/-- C4 amended: a 204 response, or a 200 response with an empty body,
yields the generic success message; any other 2xx status with an empty
body instead returns `\x7b"status": "success", "data": ""\x7d` through the
non-JSON text path.  Nothing crashes on JSON parsing. -/
theorem c4_amended (host : String) (port : Int) (endpoint method : String)
    (data : Option Json) (status : Nat)
    (h2 : 200 ≤ status ∧ status ≤ 299) :
    call_propresenter_api host port endpoint method data (.response status Body.empty)
      = if status = 204 ∨ status = 200 then successMsgObj
        else Json.obj [("status", Json.str "success"), ("data", Json.str "")] := by
  have hsucc : is2xx status = true := by
    simp only [is2xx, Bool.and_eq_true, decide_eq_true_eq]
    exact h2
  simp only [call_propresenter_api, hsucc, Bool.not_true, Bool.false_eq_true,
    if_false, Body.content]
  by_cases h204 : status = 204
  · simp [h204]
  · by_cases h200 : status = 200
    · simp [h200]
    · simp [h204, h200, jsonParse]

/-- C4 witness: a concrete 204 response yields the generic success
message. -/
theorem c4_witness :
    (200 ≤ 204 ∧ 204 ≤ 299) ∧
    call_propresenter_api "localhost" 50001 "/v1/clear/all" "GET" none
      (.response 204 Body.empty)
      = if 204 = 204 ∨ 204 = 200 then successMsgObj
        else Json.obj [("status", Json.str "success"), ("data", Json.str "")] :=
  ⟨⟨by decide, by decide⟩,
   c4_amended "localhost" 50001 "/v1/clear/all" "GET" none 204 ⟨by decide, by decide⟩⟩

/-- C5: for every operation, a non-2xx response yields an error result
carrying the numeric status code and the status-specific message: 404 the
endpoint-unsupported message, 401/403 the authentication message, 500 the
remote-internal-error message, anything else the generic "HTTP code"
message. -/
theorem c5_non2xx_status_specific_error (host : String) (port : Int)
    (endpoint method : String) (data : Option Json) (status : Nat) (body : Body)
    (hnon : ¬(200 ≤ status ∧ status ≤ 299)) :
    call_propresenter_api host port endpoint method data (.response status body)
      = Json.obj [("status", Json.str "error"),
          ("message", Json.str (
            if status = 404 then
              "Endpoint not found: " ++ endpoint ++
                ". This endpoint may not be supported in your ProPresenter version."
            else if status = 401 ∨ status = 403 then
              "Authentication failed. Check if ProPresenter requires authentication credentials."
            else if status = 500 then
              "ProPresenter server error. The API request was received but ProPresenter encountered an internal error."
            else
              "HTTP " ++ toString status ++ " error: " ++ body.content)),
          ("status_code", Json.num status)] := by
  have hfail : is2xx status = false := by
    simp only [is2xx, Bool.and_eq_false_iff]
    rcases Nat.lt_or_ge status 200 with h | h
    · exact Or.inl (by simpa using Nat.not_le.mpr h)
    · rcases Nat.lt_or_ge 299 status with h3 | h3
      · exact Or.inr (by simpa using Nat.not_le.mpr h3)
      · exact absurd ⟨h, h3⟩ hnon
  simp only [call_propresenter_api, hfail, Bool.not_false, if_true,
    httpStatusErrorMsg]

/-- C5 witness: a concrete 404 yields the endpoint-unsupported message with
status code 404. -/
theorem c5_witness :
    call_propresenter_api "localhost" 50001 "/v1/looks" "GET" none
      (.response 404 (Body.textBody "nope"))
      = Json.obj [("status", Json.str "error"),
          ("message", Json.str (
            if 404 = 404 then
              "Endpoint not found: " ++ "/v1/looks" ++
                ". This endpoint may not be supported in your ProPresenter version."
            else if 404 = 401 ∨ 404 = 403 then
              "Authentication failed. Check if ProPresenter requires authentication credentials."
            else if 404 = 500 then
              "ProPresenter server error. The API request was received but ProPresenter encountered an internal error."
            else
              "HTTP " ++ toString 404 ++ " error: " ++ (Body.textBody "nope").content)),
          ("status_code", Json.num 404)] :=
  c5_non2xx_status_specific_error "localhost" 50001 "/v1/looks" "GET" none 404
    (Body.textBody "nope") (by decide)

/-- C6: a transport-level failure (timeout or connection refused) yields an
error result, not an exception, whose message names the configured target
(`http://host:port` built from the configured host and port) and whose
trailing text suggests the remote app may not be running or its network
API not enabled. -/
theorem c6_transport_failure_names_target (host : String) (port : Int)
    (endpoint method : String) (data : Option Json) (o : HttpOutcome)
    (h : o = HttpOutcome.timeout ∨ o = HttpOutcome.connectError) :
    ∃ pre post : String,
      call_propresenter_api host port endpoint method data o
        = errObj (pre ++ ("http://" ++ host ++ ":" ++ toString port) ++ post) ∧
      (post = ". Ensure ProPresenter is running and the network API is enabled." ∨
       post = ". Check that ProPresenter is running, the API is enabled in Network settings, and the host/port are correct.") := by
  rcases h with rfl | rfl
  · exact ⟨"Request timed out connecting to ProPresenter at ",
      ". Ensure ProPresenter is running and the network API is enabled.",
      rfl, Or.inl rfl⟩
  · exact ⟨"Cannot connect to ProPresenter at ",
      ". Check that ProPresenter is running, the API is enabled in Network settings, and the host/port are correct.",
      rfl, Or.inr rfl⟩

/-- C6 witness: a concrete timeout against localhost:50001 produces an
error result naming `http://localhost:50001`. -/
theorem c6_witness :
    ∃ pre post : String,
      call_propresenter_api "localhost" 50001 "/v1/timers" "GET" none HttpOutcome.timeout
        = errObj (pre ++ ("http://" ++ "localhost" ++ ":" ++ toString (50001 : Int)) ++ post) ∧
      (post = ". Ensure ProPresenter is running and the network API is enabled." ∨
       post = ". Check that ProPresenter is running, the API is enabled in Network settings, and the host/port are correct.") :=
  c6_transport_failure_names_target "localhost" 50001 "/v1/timers" "GET" none
    HttpOutcome.timeout (Or.inl rfl)

/-- C7: a 200 response with a non-empty body that fails JSON parsing is
returned as `\x7b"status": "success", "data": raw text\x7d` through the
`ValueError` handler, not raised. -/
theorem c7_non_json_200_returns_raw_text (host : String) (port : Int)
    (endpoint method : String) (data : Option Json) (s : String)
    (hs : s ≠ "") :
    call_propresenter_api host port endpoint method data
      (.response 200 (.textBody s))
      = Json.obj [("status", Json.str "success"), ("data", Json.str s)] := by
  simp only [call_propresenter_api, is2xx, Body.content, jsonParse]
  norm_num
  intro h
  exact absurd h hs

/-- C7 witness: a concrete 200 response with body `OK` comes back as a
success result carrying the raw text `OK`. -/
theorem c7_witness :
    call_propresenter_api "localhost" 50001 "/v1/version" "GET" none
      (.response 200 (.textBody "OK"))
      = Json.obj [("status", Json.str "success"), ("data", Json.str "OK")] :=
  c7_non_json_200_returns_raw_text "localhost" 50001 "/v1/version" "GET" none "OK"
    (by decide)

/-- C8 counterexample: the claim says that when the first name-matching
item of the listing lacks an "id" key, `trigger_macro_by_name` returns the
synthetic not-found error.  With listing `[\x7b"name": "A"\x7d]` and name
"A" the code instead raises `AttributeError` at the `.get("status")` test
on line 278 (the listing is a list), so the not-found result is never
produced; no trigger request is issued either way. -/
theorem c8_counterexample :
    trigger_macro_by_name "localhost" 50001
      (fun _ => .response 200 (.jsonBody "x" (Json.arr [Json.obj [("name", Json.str "A")]]))) "A"
      = (.error (.attributeError "get"), ["/v1/macros"]) ∧
    (Except.error (PyErr.attributeError "get") : Except PyErr Json)
      ≠ .ok (macroNotFoundObj "A") :=
  ⟨rfl, fun h => Except.noConfusion h⟩

/-- C8 amended: whenever the listing call yields a JSON array — the only
shape whose elements the scan loop could ever match, and in particular
one whose first name-matching item has no "id" key, no "uuid" inside it,
or an empty uuid — `trigger_macro_by_name` raises `AttributeError` at the
`.get("status")` check before any scan, and issues no trigger request;
the synthetic not-found error is never returned for such a listing. -/
theorem c8_amended (host : String) (port : Int) (env : String → HttpOutcome)
    (name raw : String) (xs : List Json)
    (henv : env "/v1/macros" = .response 200 (.jsonBody raw (Json.arr xs)))
    (hraw : raw ≠ "") :
    trigger_macro_by_name host port env name
      = (.error (.attributeError "get"), ["/v1/macros"]) := by
  unfold trigger_macro_by_name
  rw [henv]
  have hlist : call_propresenter_api host port "/v1/macros" "GET" none
      (.response 200 (.jsonBody raw (Json.arr xs))) = Json.arr xs :=
    c3_json_body_returned_verbatim host port "/v1/macros" "GET" none 200 raw
      (Json.arr xs) ⟨by decide, by decide⟩ ⟨hraw, fun h => absurd h (by decide)⟩
  rw [hlist]
  rfl

/-- C8 amended witness: a concrete array listing with a matching item that
has no "id" key makes the tool raise `AttributeError` after the single
listing request. -/
theorem c8_witness :
    trigger_macro_by_name "localhost" 50001
      (fun _ => .response 200 (.jsonBody "y" (Json.arr [Json.obj [("name", Json.str "Walk-in")]])))
      "Walk-in"
      = (.error (.attributeError "get"), ["/v1/macros"]) :=
  c8_amended "localhost" 50001
    (fun _ => .response 200 (.jsonBody "y" (Json.arr [Json.obj [("name", Json.str "Walk-in")]])))
    "Walk-in" "y" [Json.obj [("name", Json.str "Walk-in")]] rfl (by decide)

/-- C9: every client-generated error result (an outcome taking one of the
five `except` branches) is an object with status "error" and a non-empty
message, and it carries a "status_code" field exactly when the failure was
a non-2xx HTTP response; timeout, connection, request and unexpected
errors never carry one. -/
theorem c9_error_result_shape (host : String) (port : Int)
    (endpoint method : String) (data : Option Json) (o : HttpOutcome)
    (h : isFailure o = true) :
    ∃ kvs : List (String × Json),
      call_propresenter_api host port endpoint method data o = Json.obj kvs ∧
      objLookup kvs "status" = some (Json.str "error") ∧
      (∃ m : String, objLookup kvs "message" = some (Json.str m) ∧ m ≠ "") ∧
      ((∃ c : Json, objLookup kvs "status_code" = some c)
        ↔ isHttpStatusFailure o = true) := by
  cases o with
  | response status body =>
    have hfail : is2xx status = false := by
      simpa [isFailure] using h
    refine ⟨[("status", Json.str "error"),
             ("message", Json.str (httpStatusErrorMsg endpoint status body)),
             ("status_code", Json.num status)], ?_, rfl, ?_, ?_⟩
    · simp only [call_propresenter_api, hfail, Bool.not_false, if_true]
    · refine ⟨httpStatusErrorMsg endpoint status body, rfl, ?_⟩
      unfold httpStatusErrorMsg
      split
      · exact strAppendNeEmpty _ _ (strAppendNeEmpty _ _ (by decide))
      · split
        · exact (by decide)
        · split
          · exact (by decide)
          · exact strAppendNeEmpty _ _ (strAppendNeEmpty _ _ (strAppendNeEmpty _ _ (by decide)))
    · constructor
      · intro _
        simpa [isHttpStatusFailure] using hfail
      · intro _
        exact ⟨Json.num status, rfl⟩
  | timeout =>
    refine ⟨_, rfl, rfl, ⟨_, rfl, strAppendNeEmpty _ _ (strAppendNeEmpty _ _ (by decide))⟩, ?_⟩
    simp [isHttpStatusFailure, objLookup]
  | connectError =>
    refine ⟨_, rfl, rfl, ⟨_, rfl, strAppendNeEmpty _ _ (strAppendNeEmpty _ _ (by decide))⟩, ?_⟩
    simp [isHttpStatusFailure, objLookup]
  | requestError m =>
    refine ⟨_, rfl, rfl, ⟨_, rfl, strAppendNeEmpty _ _ (by decide)⟩, ?_⟩
    simp [isHttpStatusFailure, objLookup]
  | unexpectedError m =>
    refine ⟨_, rfl, rfl, ⟨_, rfl, strAppendNeEmpty _ _ (by decide)⟩, ?_⟩
    simp [isHttpStatusFailure, objLookup]

/-- C9 witness: the timeout error result has the claimed shape. -/
theorem c9_witness :
    ∃ kvs : List (String × Json),
      call_propresenter_api "localhost" 50001 "/v1/props" "GET" none HttpOutcome.timeout
        = Json.obj kvs ∧
      objLookup kvs "status" = some (Json.str "error") ∧
      (∃ m : String, objLookup kvs "message" = some (Json.str m) ∧ m ≠ "") ∧
      ((∃ c : Json, objLookup kvs "status_code" = some c)
        ↔ isHttpStatusFailure HttpOutcome.timeout = true) :=
  c9_error_result_shape "localhost" 50001 "/v1/props" "GET" none
    HttpOutcome.timeout rfl

/-- C10: the request carries a JSON body exactly when the `data` argument
is truthy (`if data: kwargs["json"] = data`), and passing an empty dict
builds a request identical to passing `None`. -/
theorem c10_body_iff_truthy_data (host : String) (port : Int)
    (endpoint method : String) (data : Option Json) :
    (buildRequest host port endpoint method data).jsonData
      = Option.filter pyTruthy data ∧
    buildRequest host port endpoint method (some (Json.obj []))
      = buildRequest host port endpoint method none := by
  refine ⟨?_, rfl⟩
  cases data with
  | none => rfl
  | some d => simp [buildRequest, Option.filter]
